import Mathlib

/-!
Shallow embedding of the MarketView backend (src/main.py) for verification.

The repository ships only `main.py`; the modules `database.py` (the storage
gateway: `db`, `create_document`, `get_documents`) and `schemas.py`
(`RawArticle`, `NewsArticle`) are not under src/, so those parts are modelled
from the specification and marked as such in their doc comments.  Machine
strings are Lean `String`s; Python `str.strip()` and slicing `[:n]` are
modelled character-wise (`pyStrip`, `pyTake`); absent JSON/BSON fields are
`Option`; the process-wide database handle is an explicit `Option` parameter;
raised HTTP exceptions are `Except` values; the storage operations an endpoint
performs are returned as an explicit trace so that "no storage call happens"
is expressible.
-/

namespace MarketView

/-- Python `str[:n]`: the first `n` characters (code points) of a string. -/
def pyTake (s : String) (n : Nat) : String :=
  ⟨s.data.take n⟩

/-- Python `str.strip()`: drop leading and trailing whitespace characters. -/
def pyStrip (s : String) : String :=
  ⟨(((s.data.dropWhile Char.isWhitespace).reverse.dropWhile Char.isWhitespace).reverse)⟩

/-- Python truthiness of an optional string: `None` and `""` are falsy. -/
def truthy : Option String → Bool
  | none => false
  | some s => s != ""

/-- Modelled from the spec: the inbound `RawArticle` shape of the missing
`schemas.py` — url (string, required), source (string), title (string),
content (optional string), published_at (optional timestamp), ticker
(optional string).  Timestamps are abstracted as `Nat`. -/
structure RawArticle where
  url : String
  source : String
  title : String
  content : Option String
  published_at : Option Nat
  ticker : Option String
deriving Repr, DecidableEq

/-- Modelled from the spec: the stored `NewsArticle` shape of the missing
`schemas.py`, with exactly the fields `ingest_article` populates. -/
structure NewsArticle where
  url : String
  source : String
  title_en : Option String
  title_ko : String
  summary_ko : String
  sentiment : String
  published_at : Option Nat
  tags : List String
  ticker : Option String
deriving Repr, DecidableEq

/-- Modelled from the spec: a raw JSON request body before validation; any
field may be absent. -/
structure RawPayload where
  url : Option String
  source : Option String
  title : Option String
  content : Option String
  published_at : Option Nat
  ticker : Option String
deriving Repr, DecidableEq

/-- A malformed payload is rejected with a validation failure (HTTP
422-equivalent) naming a missing required field. -/
inductive ValidationFailure where
  | missingField (field : String)
deriving Repr, DecidableEq

/-- Modelled from the spec: request-body validation against the `RawArticle`
shape — the required string fields `url`, `source`, `title` must be present;
the remaining fields are optional.  Performed before the handler body runs. -/
def parseRawArticle (p : RawPayload) : Except ValidationFailure RawArticle :=
  match p.url with
  | none => .error (.missingField "url")
  | some u =>
    match p.source with
    | none => .error (.missingField "source")
    | some s =>
      match p.title with
      | none => .error (.missingField "title")
      | some t =>
        .ok { url := u, source := s, title := t, content := p.content,
              published_at := p.published_at, ticker := p.ticker }

/-- A document as read back from the document store: every field may be
absent, since the store is schemaless (`it.get(...)` in `list_news`). -/
structure Doc where
  id : String
  url : Option String
  source : Option String
  title_en : Option String
  title_ko : Option String
  summary_ko : Option String
  sentiment : Option String
  published_at : Option Nat
  tags : Option (List String)
  ticker : Option String
deriving Repr, DecidableEq

/-- Lookup of a string-valued field of a stored document by name, for
exact-match filtering. -/
def Doc.getStrField (d : Doc) (k : String) : Option String :=
  match k with
  | "url" => d.url
  | "source" => d.source
  | "title_en" => d.title_en
  | "title_ko" => d.title_ko
  | "summary_ko" => d.summary_ko
  | "sentiment" => d.sentiment
  | "ticker" => d.ticker
  | _ => none

/-- Modelled from the spec: the exact-match filter semantics of the missing
storage gateway `query` — a filter is a mapping of field name to value, and a
document matches when every entry equals the document field (empty mapping =
no filtering). -/
def matchesFilter (f : List (String × String)) (d : Doc) : Bool :=
  f.all fun kv => d.getStrField kv.1 == some kv.2

/-- Modelled from the spec: `get_documents` of the missing `database.py` —
`query(collection, filter, limit)` returns the matching documents in storage
order, the number of results bounded by `limit`. -/
def get_documents (store : List Doc) (f : List (String × String)) (limit : Int) :
    List Doc :=
  (store.filter (matchesFilter f)).take limit.toNat

/-- A stored `NewsArticle` as it reads back from the store, together with the
storage-assigned `_id`. -/
def storedToDoc (id : String) (a : NewsArticle) : Doc :=
  { id := id, url := some a.url, source := some a.source,
    title_en := a.title_en, title_ko := some a.title_ko,
    summary_ko := some a.summary_ko, sentiment := some a.sentiment,
    published_at := a.published_at, tags := some a.tags, ticker := a.ticker }

/-- Modelled from the spec: `create_document` of the missing `database.py` —
`insert(collection, document)` writes exactly one document and returns the
storage-assigned identifier; the fresh identifier is passed in explicitly. -/
def create_document (store : List Doc) (newId : String) (a : NewsArticle) :
    List Doc :=
  store ++ [storedToDoc newId a]

/-- The outbound response shape of `list_news` (main.py, `NewsResponse`). -/
structure NewsResponse where
  id : String
  source : String
  title_ko : String
  summary_ko : String
  sentiment : String
  published_at : Option Nat
  tags : List String
  ticker : Option String
deriving Repr, DecidableEq

/-- The per-document response mapping inlined in `list_news` (main.py lines
85-94); the spec names it `toResponse`. -/
def toResponse (it : Doc) : NewsResponse :=
  { id := it.id
    source := it.source.getD ""
    title_ko := it.title_ko.getD (it.title_en.getD "")
    summary_ko := it.summary_ko.getD ""
    sentiment := it.sentiment.getD "neutral"
    published_at := it.published_at
    tags := it.tags.getD []
    ticker := it.ticker }

/-- A raised `HTTPException` (status code and detail message). -/
structure HTTPError where
  status_code : Nat
  detail : String
deriving Repr, DecidableEq

/-- One call into the storage gateway, recorded as an explicit trace event. -/
inductive StorageCall where
  | insert (collection : String) (doc : Doc)
  | query (collection : String) (f : List (String × String)) (limit : Int)
deriving Repr, DecidableEq

/-- The filter construction of `list_news` (main.py lines 76-80): an entry is
added for each truthy optional parameter. -/
def buildFilter (sentiment ticker : Option String) : List (String × String) :=
  (if truthy sentiment then [("sentiment", sentiment.getD "")] else [])
    ++ (if truthy ticker then [("ticker", ticker.getD "")] else [])

/-- `list_news` (main.py lines 71-95).  The process-wide handle `db` is the
explicit first argument (`none` = no connection); the result pairs the HTTP
outcome with the trace of storage calls made. -/
def list_news (db : Option (List Doc)) (limit : Int)
    (sentiment ticker : Option String) :
    Except HTTPError (List NewsResponse) × List StorageCall :=
  match db with
  | none => (.error ⟨500, "Database not available"⟩, [])
  | some store =>
    let f := buildFilter sentiment ticker
    let items := get_documents store f limit
    (.ok (items.map toResponse), [.query "news" f limit])

/-- The document construction of `ingest_article` (main.py lines 106-117):
the `NewsArticle` built from the validated payload.  The spec names this
mapping `toStoredArticle`. -/
def toStoredArticle (payload : RawArticle) : NewsArticle :=
  let title_ko := payload.title
  { url := payload.url
    source := payload.source
    title_en := none
    title_ko := title_ko
    summary_ko :=
      (let s := pyTake (pyStrip (payload.content.getD "")) 500
       if s = "" then "요약 없음" else s)
    sentiment := "neutral"
    published_at := payload.published_at
    tags := []
    ticker := payload.ticker }

/-- The outcome of a `POST /api/ingest` request. -/
inductive IngestOutcome where
  | validationError (err : ValidationFailure)
  | httpError (err : HTTPError)
  | success (id : String) (status : String)
deriving Repr, DecidableEq

/-- `ingest_article` (main.py lines 98-119), composed with the framework
validation of the request body: validation runs first (so a malformed body is
rejected whatever the connection state), then the `db is None` check, then
`create_document`.  Returns the updated handle, the HTTP outcome
(`success id "ok"` models the literal response `\x7bid, status: "ok"\x7d`),
and the trace of storage calls made. -/
def ingest_article (db : Option (List Doc)) (newId : String) (body : RawPayload) :
    Option (List Doc) × IngestOutcome × List StorageCall :=
  match parseRawArticle body with
  | .error e => (db, .validationError e, [])
  | .ok payload =>
    match db with
    | none => (db, .httpError ⟨500, "Database not available"⟩, [])
    | some store =>
      let doc := toStoredArticle payload
      (some (create_document store newId doc),
       .success newId "ok",
       [.insert "news" (storedToDoc newId doc)])

/-- Modelled from the spec: the connection handle seen by the diagnostics
endpoint — when live, its `list_collection_names` introspection either yields
the collection names or raises (an error message). -/
structure DbHandle where
  list_collection_names : Except String (List String)
deriving Repr

/-- The diagnostics response shape of `test_database` (main.py lines 29-36). -/
structure TestResponse where
  backend : String
  database : String
  database_url : Option String
  database_name : Option String
  connection_status : String
  collections : List String
deriving Repr, DecidableEq

/-- `test_database` (main.py lines 27-55).  The environment is abstracted as
whether `DATABASE_URL` is set and the optional `DATABASE_NAME` value; every
introspection failure is folded into the `database` status string, so the
function is total (the endpoint always answers HTTP 200). -/
def test_database (db : Option DbHandle) (databaseUrlSet : Bool)
    (databaseName : Option String) : TestResponse :=
  match db with
  | none =>
    { backend := "✅ Running"
      database := "⚠️  Available but not initialized"
      database_url := none
      database_name := none
      connection_status := "Not Connected"
      collections := [] }
  | some h =>
    let base : TestResponse :=
      { backend := "✅ Running"
        database := "✅ Available"
        database_url := some (if databaseUrlSet then "✅ Set" else "❌ Not Set")
        database_name :=
          some (if truthy databaseName then databaseName.getD "" else "❌ Not Set")
        connection_status := "Connected"
        collections := [] }
    match h.list_collection_names with
    | .ok cols =>
      { base with collections := cols.take 10, database := "✅ Connected & Working" }
    | .error e =>
      { base with database := "⚠️  Connected but Error: " ++ pyTake e 80 }

/-! ## Helper lemmas -/

/-- Taking the first `n` characters of a string yields the empty string
exactly when `n = 0` or the string is empty. -/
lemma pyTake_eq_empty_iff (s : String) (n : Nat) : pyTake s n = "" ↔ n = 0 ∨ s = "" := by
  cases s with
  | mk l => simp [pyTake, String.ext_iff, List.take_eq_nil_iff, or_comm]

/-- Field lookup by the name "sentiment" reads the sentiment field. -/
lemma getStrField_sentiment (d : Doc) : d.getStrField "sentiment" = d.sentiment := rfl

/-- Field lookup by the name "ticker" reads the ticker field. -/
lemma getStrField_ticker (d : Doc) : d.getStrField "ticker" = d.ticker := rfl

/-! ## Claims -/

/-- Claim C1, counterexample to the claim as stated: for a payload with
absent content the stored summary_ko is the Korean placeholder "요약 없음",
not the string "no summary available" named by the claim. -/
theorem summary_placeholder_counterexample :
    (toStoredArticle ⟨"http://x", "S", "T", none, none, none⟩).summary_ko = "요약 없음"
    ∧ "요약 없음" ≠ "no summary available" := by
  decide

/-- Claim C1 (amended): for every RawArticle payload accepted by ingest, the
stored summary_ko equals the first 500 characters of the content stripped of
leading and trailing whitespace, or the fixed placeholder string "요약 없음"
when that stripped result is empty (content absent, empty or
whitespace-only); in particular the stored summary_ko is never empty. -/
theorem ingest_summary_ko_spec (p : RawArticle) :
    (pyStrip (p.content.getD "") ≠ "" →
      (toStoredArticle p).summary_ko = pyTake (pyStrip (p.content.getD "")) 500)
    ∧ (pyStrip (p.content.getD "") = "" →
      (toStoredArticle p).summary_ko = "요약 없음")
    ∧ (toStoredArticle p).summary_ko ≠ "" := by
  have hdef : (toStoredArticle p).summary_ko
      = (if pyTake (pyStrip (p.content.getD "")) 500 = "" then "요약 없음"
         else pyTake (pyStrip (p.content.getD "")) 500) := rfl
  refine ⟨?_, ?_, ?_⟩
  · intro h
    rw [hdef, if_neg]
    simp [pyTake_eq_empty_iff, h]
  · intro h
    rw [hdef, if_pos]
    rw [pyTake_eq_empty_iff]
    exact Or.inr h
  · rw [hdef]
    by_cases h : pyTake (pyStrip (p.content.getD "")) 500 = ""
    · rw [if_pos h]
      decide
    · rw [if_neg h]
      exact h

/-- Claim C1, witness: a payload with content " hi " stores the stripped and
truncated summary. -/
theorem ingest_summary_ko_spec_witness :
    (toStoredArticle ⟨"http://x", "S", "T", some " hi ", none, none⟩).summary_ko
      = pyTake (pyStrip " hi ") 500 :=
  (ingest_summary_ko_spec ⟨"http://x", "S", "T", some " hi ", none, none⟩).1 (by decide)

/-- Claim C2, counterexample to the claim as stated: with a supplied but
empty sentiment parameter the storage filter contains no sentiment entry at
all, and a document whose sentiment is "positive" (which differs from the
supplied value "") is returned. -/
theorem empty_sentiment_param_counterexample :
    (list_news (some [⟨"d1", none, none, none, none, none, some "positive", none, none, none⟩])
        20 (some "") none).2
      = [.query "news" [] 20]
    ∧ (list_news (some [⟨"d1", none, none, none, none, none, some "positive", none, none, none⟩])
        20 (some "") none).1
      = .ok [toResponse ⟨"d1", none, none, none, none, none, some "positive", none, none, none⟩]
    ∧ (toResponse ⟨"d1", none, none, none, none, none, some "positive", none, none, none⟩).sentiment
      = "positive"
    ∧ ("positive" : String) ≠ "" :=
  ⟨rfl, rfl, rfl, by decide⟩

/-- Claim C2 (amended): the list operation builds its storage filter from the
truthy (supplied and non-empty) optional parameters; a supplied non-empty
sentiment appears in the filter as an exact-match entry, a supplied non-empty
ticker likewise (alone and together with a sentiment), every document
returned under a sentiment (or ticker) filter has a sentiment (or ticker)
field exactly equal to the filter value, and with no filters all documents
(up to limit) are returned regardless of their field values. -/
theorem list_news_filter_spec (store : List Doc) (limit : Int) (s t : String)
    (hs : s ≠ "") (ht : t ≠ "") :
    (list_news (some store) limit (some s) none).2
      = [.query "news" [("sentiment", s)] limit]
    ∧ (∀ l, (list_news (some store) limit (some s) none).1 = .ok l →
        ∀ r ∈ l, ∃ d ∈ store, d.sentiment = some s ∧ r = toResponse d)
    ∧ (list_news (some store) limit none (some t)).2
      = [.query "news" [("ticker", t)] limit]
    ∧ (∀ l, (list_news (some store) limit none (some t)).1 = .ok l →
        ∀ r ∈ l, ∃ d ∈ store, d.ticker = some t ∧ r = toResponse d)
    ∧ (list_news (some store) limit (some s) (some t)).2
      = [.query "news" [("sentiment", s), ("ticker", t)] limit]
    ∧ (list_news (some store) limit none none).1
      = .ok ((store.take limit.toNat).map toResponse) := by
  have hb : buildFilter (some s) none = [("sentiment", s)] := by
    simp [buildFilter, truthy, hs]
  have hbt : buildFilter none (some t) = [("ticker", t)] := by
    simp [buildFilter, truthy, ht]
  have hbst : buildFilter (some s) (some t) = [("sentiment", s), ("ticker", t)] := by
    simp [buildFilter, truthy, hs, ht]
  refine ⟨?_, ?_, ?_, ?_, ?_, ?_⟩
  · simp [list_news, hb]
  · intro l hl r hr
    simp [list_news, hb] at hl
    subst hl
    obtain ⟨d, hd, rfl⟩ := List.mem_map.1 hr
    have hd2 := List.take_subset _ _ hd
    obtain ⟨hmem, hmatch⟩ := List.mem_filter.1 hd2
    simp [matchesFilter, getStrField_sentiment] at hmatch
    exact ⟨d, hmem, hmatch, rfl⟩
  · simp [list_news, hbt]
  · intro l hl r hr
    simp [list_news, hbt] at hl
    subst hl
    obtain ⟨d, hd, rfl⟩ := List.mem_map.1 hr
    have hd2 := List.take_subset _ _ hd
    obtain ⟨hmem, hmatch⟩ := List.mem_filter.1 hd2
    simp [matchesFilter, getStrField_ticker] at hmatch
    exact ⟨d, hmem, hmatch, rfl⟩
  · simp [list_news, hbst]
  · have h0 : buildFilter none none = [] := rfl
    have hfil : store.filter (matchesFilter []) = store :=
      List.filter_eq_self.mpr fun a _ => rfl
    simp [list_news, h0, get_documents, hfil]

/-- Claim C2, witness: over an empty store a non-empty sentiment "neutral"
and a non-empty ticker "AAPL" each appear in the recorded storage filter. -/
theorem list_news_filter_spec_witness :
    (list_news (some []) 20 (some "neutral") none).2
      = [.query "news" [("sentiment", "neutral")] 20]
    ∧ (list_news (some []) 20 none (some "AAPL")).2
      = [.query "news" [("ticker", "AAPL")] 20]
    ∧ (list_news (some []) 20 (some "neutral") (some "AAPL")).2
      = [.query "news" [("sentiment", "neutral"), ("ticker", "AAPL")] 20] :=
  ⟨(list_news_filter_spec [] 20 "neutral" "AAPL" (by decide) (by decide)).1,
   (list_news_filter_spec [] 20 "neutral" "AAPL" (by decide) (by decide)).2.2.1,
   (list_news_filter_spec [] 20 "neutral" "AAPL" (by decide) (by decide)).2.2.2.2.1⟩

/-- Claim C3: ingesting a RawArticle with url "http://x", source "S", title
"T", content "hello" into an empty store and then listing news yields a
NewsResponse with title_ko "T", summary_ko "hello", sentiment "neutral" and
ticker absent. -/
theorem roundtrip_ingest_list :
    (ingest_article (some []) "id0"
        ⟨some "http://x", some "S", some "T", some "hello", none, none⟩).2.1
      = .success "id0" "ok"
    ∧ (list_news
        (ingest_article (some []) "id0"
          ⟨some "http://x", some "S", some "T", some "hello", none, none⟩).1
        20 none none).1
      = .ok [{ id := "id0", source := "S", title_ko := "T", summary_ko := "hello",
               sentiment := "neutral", published_at := none, tags := [],
               ticker := none }] :=
  ⟨rfl, rfl⟩

/-- Claim C4: for every payload, the document built by the ingest operation
has sentiment exactly the constant "neutral". -/
theorem ingest_sentiment_neutral (p : RawArticle) :
    (toStoredArticle p).sentiment = "neutral" := rfl

/-- Claim C5: the response mapping of the list operation lets title_ko fall
back to the stored title_en when title_ko is absent, lets tags fall back to
the empty sequence when absent, and copies every other present field
directly. -/
theorem toResponse_spec (d : Doc) :
    (d.title_ko = none → (toResponse d).title_ko = d.title_en.getD "")
    ∧ (∀ t, d.title_ko = some t → (toResponse d).title_ko = t)
    ∧ (d.tags = none → (toResponse d).tags = [])
    ∧ (∀ ts, d.tags = some ts → (toResponse d).tags = ts)
    ∧ (toResponse d).id = d.id
    ∧ (toResponse d).published_at = d.published_at
    ∧ (toResponse d).ticker = d.ticker
    ∧ (∀ s, d.source = some s → (toResponse d).source = s)
    ∧ (∀ s, d.summary_ko = some s → (toResponse d).summary_ko = s)
    ∧ (∀ s, d.sentiment = some s → (toResponse d).sentiment = s) :=
  ⟨fun h => by simp [toResponse, h], fun t h => by simp [toResponse, h],
   fun h => by simp [toResponse, h], fun ts h => by simp [toResponse, h],
   rfl, rfl, rfl,
   fun s h => by simp [toResponse, h],
   fun s h => by simp [toResponse, h],
   fun s h => by simp [toResponse, h]⟩

/-- Claim C5, witness: a document with absent title_ko and title_en "EN" and
absent tags maps to a response with title_ko "EN" and empty tags. -/
theorem toResponse_spec_witness :
    (toResponse ⟨"d2", none, none, some "EN", none, none, none, none, none, none⟩).title_ko = "EN"
    ∧ (toResponse ⟨"d2", none, none, some "EN", none, none, none, none, none, none⟩).tags = [] :=
  ⟨(toResponse_spec ⟨"d2", none, none, some "EN", none, none, none, none, none, none⟩).1 rfl,
   (toResponse_spec ⟨"d2", none, none, some "EN", none, none, none, none, none, none⟩).2.2.1 rfl⟩

/-- Claim C6: a list call with limit 0 against a live store returns the empty
sequence, whatever the store contents and the optional filters. -/
theorem list_news_limit_zero (store : List Doc) (s t : Option String) :
    (list_news (some store) 0 s t).1 = .ok [] := rfl

/-- Claim C7: an ingest request whose body is missing the required url field
is rejected with a validation failure before any storage call: the store
handle is returned unchanged and the trace of storage calls is empty. -/
theorem ingest_missing_url (db : Option (List Doc)) (newId : String)
    (body : RawPayload) (h : body.url = none) :
    ingest_article db newId body = (db, .validationError (.missingField "url"), []) := by
  simp [ingest_article, parseRawArticle, h]

/-- Claim C7, witness: a concrete body without url is rejected and the store
is left untouched with no storage call recorded. -/
theorem ingest_missing_url_witness :
    ingest_article (some []) "id1" ⟨none, some "S", some "T", some "body", none, none⟩
      = (some [], .validationError (.missingField "url"), []) :=
  ingest_missing_url (some []) "id1" ⟨none, some "S", some "T", some "body", none, none⟩ rfl

/-- Claim C8: with no storage connection both the list and the ingest
operation fail with the 500 "Database not available" error and record no
storage call, while a successful ingest returns the identifier together with
status "ok". -/
theorem storage_unavailable_spec (limit : Int) (s t : Option String)
    (newId : String) (body : RawPayload) (store : List Doc) (a : RawArticle)
    (h : parseRawArticle body = .ok a) :
    list_news none limit s t = (.error ⟨500, "Database not available"⟩, [])
    ∧ ingest_article none newId body
        = (none, .httpError ⟨500, "Database not available"⟩, [])
    ∧ (ingest_article (some store) newId body).2.1 = .success newId "ok" := by
  refine ⟨rfl, ?_, ?_⟩ <;> simp [ingest_article, h]

/-- Claim C8, witness: with a concrete valid body, list and ingest fail with
the 500 error when the handle is absent, and ingest succeeds with status "ok"
on a live empty store. -/
theorem storage_unavailable_spec_witness :
    list_news none 20 none none = (.error ⟨500, "Database not available"⟩, [])
    ∧ ingest_article none "id0" ⟨some "u", some "S", some "T", none, none, none⟩
        = (none, .httpError ⟨500, "Database not available"⟩, [])
    ∧ (ingest_article (some []) "id0" ⟨some "u", some "S", some "T", none, none, none⟩).2.1
        = .success "id0" "ok" :=
  storage_unavailable_spec 20 none none "id0"
    ⟨some "u", some "S", some "T", none, none, none⟩ []
    ⟨"u", "S", "T", none, none, none⟩ rfl

/-- Claim C9: the diagnostics operation is total over every connection state
(all introspection errors are folded into the returned status fields), with
no connection it answers with the not-initialized database status and the
Not Connected state, and the reported collection-name list is always bounded
to the first 10 names. -/
theorem test_database_spec (db : Option DbHandle) (u : Bool) (n : Option String) :
    (test_database db u n).collections.length ≤ 10
    ∧ (db = none →
        test_database db u n
          = { backend := "✅ Running", database := "⚠️  Available but not initialized",
              database_url := none, database_name := none,
              connection_status := "Not Connected", collections := [] })
    ∧ (∀ h e, db = some h → h.list_collection_names = .error e →
        (test_database db u n).database = "⚠️  Connected but Error: " ++ pyTake e 80) := by
  cases db with
  | none =>
    exact ⟨by simp [test_database], fun _ => rfl, fun h e hd => by cases hd⟩
  | some hd =>
    refine ⟨?_, ?_, ?_⟩
    · cases hc : hd.list_collection_names with
      | ok cols =>
        simp [test_database, hc, List.length_take]
      | error e =>
        simp [test_database, hc]
    · intro h
      cases h
    · intro h e hsome herr
      injection hsome with hh
      subst hh
      simp [test_database, herr]

/-- Claim C9, witness: with no connection handle the diagnostics response is
the not-initialized status with empty collections. -/
theorem test_database_spec_witness :
    test_database none true (some "mydb")
      = { backend := "✅ Running", database := "⚠️  Available but not initialized",
          database_url := none, database_name := none,
          connection_status := "Not Connected", collections := [] } :=
  (test_database_spec none true (some "mydb")).2.1 rfl

/-- Claim C10: every document stored by the ingest operation has title_en
absent, so the title_en fallback of the response mapping can only ever yield
the empty string for such a document; the actual response title is the
payload title. -/
theorem ingest_title_en_absent (p : RawArticle) (id : String) :
    (toStoredArticle p).title_en = none
    ∧ (toStoredArticle p).title_en.getD "" = ""
    ∧ (toResponse (storedToDoc id (toStoredArticle p))).title_ko = p.title :=
  ⟨rfl, rfl, rfl⟩

end MarketView
